import Mathlib

/-!
Verification of the drone state/telemetry core of the UTM ground-control
repository.  The authoritative declarations live in
`src/Libs/Interfaces/IDrone.h` (namespace `Interface::Drone`): the
`Capability`, `Status` and `FlightMode` enumerations and the value structs
`Positioning_t`, `Rotation_t`, `Translation_t`, `TelemetryData_t`.  The
header declares no function bodies; the operational parts (the status
state machine, the flight-mode state machine, telemetry ingestion, the
capability set) are modelled from the specification, as marked on each
definition.
-/

set_option linter.dupNamespace false

namespace Interface
namespace Drone

/-- The `Capability` enumeration exactly as declared in
`src/Libs/Interfaces/IDrone.h` lines 14-26.  The third enumerator is
spelled `Infared` in the source (sic). -/
inductive Capability where
  | Video
  | Thermal
  | Infared
  | SearchLight
  | Speaker
  | PayloadBay
  | HighAltitude
  | LongRange
  | FastSpeed
  | HeavyLift
deriving DecidableEq, Repr, Fintype

/-- The C++ enumerator identifier of each `Capability` value, exactly as
spelled in `src/Libs/Interfaces/IDrone.h` lines 14-26. -/
def capabilityName : Capability → String
  | .Video => "Video"
  | .Thermal => "Thermal"
  | .Infared => "Infared"
  | .SearchLight => "SearchLight"
  | .Speaker => "Speaker"
  | .PayloadBay => "PayloadBay"
  | .HighAltitude => "HighAltitude"
  | .LongRange => "LongRange"
  | .FastSpeed => "FastSpeed"
  | .HeavyLift => "HeavyLift"

/-- The underlying integral value of each `Capability` enumerator: the
source assigns `Video = 1` and lets the rest follow consecutively. -/
def capabilityValue : Capability → Nat
  | .Video => 1
  | .Thermal => 2
  | .Infared => 3
  | .SearchLight => 4
  | .Speaker => 5
  | .PayloadBay => 6
  | .HighAltitude => 7
  | .LongRange => 8
  | .FastSpeed => 9
  | .HeavyLift => 10

/-- The `Status` enumeration exactly as declared in
`src/Libs/Interfaces/IDrone.h` lines 29-40. -/
inductive Status where
  | Offline
  | Idle
  | Armed
  | TakingOff
  | InFlight
  | Landing
  | Landed
  | Emergency
  | Maintenance
deriving DecidableEq, Repr, Fintype

/-- The `FlightMode` enumeration exactly as declared in
`src/Libs/Interfaces/IDrone.h` lines 43-55. -/
inductive FlightMode where
  | Manual
  | Stabilize
  | AltitudeHold
  | PositionHold
  | Guided
  | Auto
  | ReturnToLaunch
  | Land
  | Follow
  | Circle
deriving DecidableEq, Repr, Fintype

/-- `Positioning_t` exactly as declared in `src/Libs/Interfaces/IDrone.h`
lines 57-63: geodetic position, every field default-initialised to `0`
(`double` fields are modelled as real numbers). -/
structure Positioning_t where
  latitude : ℝ := 0
  longitude : ℝ := 0
  absoluteAltitude : ℝ := 0
  relativeAltitude : ℝ := 0

/-- `Rotation_t` exactly as declared in `src/Libs/Interfaces/IDrone.h`
lines 81-86: body-fixed ZYX Euler orientation in radians, every field
default-initialised to `0.0`. -/
structure Rotation_t where
  roll : ℝ := 0
  pitch : ℝ := 0
  yaw : ℝ := 0

/-- `Translation_t` exactly as declared in `src/Libs/Interfaces/IDrone.h`
lines 103-108: body-fixed translation velocities in meters per second,
every field default-initialised to `0.0`. -/
structure Translation_t where
  x : ℝ := 0
  y : ℝ := 0
  z : ℝ := 0

/-- The documented range invariant of a geodetic position (spec section 3):
latitude in [-90, 90] degrees, longitude in [-180, 180] degrees.  The
finiteness requirement on the altitudes is intrinsic to the real-number
model of `double`. -/
def PositionInvariant (p : Positioning_t) : Prop :=
  p.latitude ∈ Set.Icc (-90 : ℝ) 90 ∧ p.longitude ∈ Set.Icc (-180 : ℝ) 180

/-- The documented range invariant of a stored orientation (spec section 3):
roll and pitch in [-pi, pi], yaw wrap-around-normalized into [-pi, pi). -/
def RotationInvariant (r : Rotation_t) : Prop :=
  r.roll ∈ Set.Icc (-Real.pi) Real.pi ∧
  r.pitch ∈ Set.Icc (-Real.pi) Real.pi ∧
  r.yaw ∈ Set.Ico (-Real.pi) Real.pi

/-- Modelled from the spec: the telemetry snapshot record of spec section 3
(`TelemetrySnapshot`), carrying `timestamp, position, orientation, velocity,
status, mode, sequenceNumber`.  The source declares the corresponding
`TelemetryData_t` (`src/Libs/Interfaces/IDrone.h` lines 110-113) with an
empty body, so its fields are missing from the source and are taken from
the spec's words.  Timestamps are modelled as natural numbers; the record
is a plain immutable value. -/
structure TelemetrySnapshot where
  timestamp : ℕ
  position : Positioning_t
  orientation : Rotation_t
  velocity : Translation_t
  status : Status
  mode : FlightMode
  sequenceNumber : ℕ

/-- Modelled from the spec: the `Drone` aggregate root of spec section 3:
`{id, capabilities, status, mode, latest}`.  No such aggregate appears in
the source headers.  `latest` is `none` before the first successful
ingestion, so that the per-drone sequence can start at 0. -/
structure Drone where
  id : String
  capabilities : Finset Capability
  status : Status
  mode : FlightMode
  latest : Option TelemetrySnapshot

/-- Modelled from the spec: `Capabilities(drone)`, the read-only capability
set accessor of spec section 4.2 (missing from the source). -/
def Capabilities (d : Drone) : Finset Capability :=
  d.capabilities

/-- Modelled from the spec: `HasCapability(drone, capability)` of spec
section 4.2 (missing from the source). -/
def HasCapability (d : Drone) (c : Capability) : Bool :=
  c ∈ d.capabilities

/-- Modelled from the spec: the transition events of the status state
machine of spec section 4.3 (missing from the source).  `emergencyTrigger`
stands for any of the three emergency triggers (telemetry loss timeout,
critical battery, operator emergency command); `abnormalDescent` is the
abnormal-descent report during landing. -/
inductive Event where
  | connectionEstablished
  | armCommand
  | maintenanceRequest
  | takeoffCommand
  | disarmCommand
  | altitudeThresholdReached
  | landCommand
  | emergencyTrigger
  | groundContact
  | abnormalDescent
  | postFlightReset
  | maintenanceAcknowledge
  | connectionLost
deriving DecidableEq, Repr, Fintype

/-- Modelled from the spec: the transition errors of spec sections 4.3 and
7 (missing from the source).  `IllegalTransition` carries the state the
transition was attempted from and the attempted event. -/
inductive TransitionError where
  | IllegalTransition (fromState : Status) (attemptedEvent : Event)
deriving DecidableEq, Repr

/-- Modelled from the spec: the transition table of spec section 4.3
(missing from the source), read as a partial successor function: `some`
of the target state on a legal edge, `none` otherwise.  The connection-lost
rule maps every state to `Offline`. -/
def nextStatus : Status → Event → Option Status
  | _, .connectionLost => some .Offline
  | .Offline, .connectionEstablished => some .Idle
  | .Idle, .armCommand => some .Armed
  | .Idle, .maintenanceRequest => some .Maintenance
  | .Armed, .takeoffCommand => some .TakingOff
  | .Armed, .disarmCommand => some .Idle
  | .TakingOff, .altitudeThresholdReached => some .InFlight
  | .InFlight, .landCommand => some .Landing
  | .InFlight, .emergencyTrigger => some .Emergency
  | .Landing, .groundContact => some .Landed
  | .Landing, .abnormalDescent => some .Emergency
  | .Landed, .postFlightReset => some .Idle
  | .Emergency, .maintenanceAcknowledge => some .Maintenance
  | _, _ => none

/-- The legal edges of the spec section 4.3 transition table, listed
verbatim as (current status, event) pairs: the twelve fixed edges plus
the connection-lost edge from every state. -/
def legalEdges : List (Status × Event) :=
  [(.Offline, .connectionEstablished),
   (.Idle, .armCommand),
   (.Idle, .maintenanceRequest),
   (.Armed, .takeoffCommand),
   (.Armed, .disarmCommand),
   (.TakingOff, .altitudeThresholdReached),
   (.InFlight, .landCommand),
   (.InFlight, .emergencyTrigger),
   (.Landing, .groundContact),
   (.Landing, .abnormalDescent),
   (.Landed, .postFlightReset),
   (.Emergency, .maintenanceAcknowledge)]
  ++ ([.Offline, .Idle, .Armed, .TakingOff, .InFlight, .Landing, .Landed,
       .Emergency, .Maintenance].map (fun s => (s, Event.connectionLost)))

/-- Modelled from the spec: `RequestTransition(drone, event)` of spec
section 4.3 (missing from the source).  Returns the result value together
with the drone after the call; an illegal edge fails with
`IllegalTransition{from, attemptedEvent}` and returns the drone unchanged. -/
def RequestTransition (d : Drone) (e : Event) :
    Except TransitionError Status × Drone :=
  match nextStatus d.status e with
  | some s => (.ok s, { d with status := s })
  | none => (.error (.IllegalTransition d.status e), d)

/-- Modelled from the spec: arbitration of two transition events issued
concurrently for the same drone, per spec sections 4.3 and 5: the
connection-lost override "supersedes all other pending transitions", so
when either pending event is `connectionLost` the other is discarded and
the drone goes `Offline`; otherwise the two requests are serialized in
issue order. -/
def resolveConcurrent (d : Drone) (e₁ e₂ : Event) : Drone :=
  if e₁ = .connectionLost ∨ e₂ = .connectionLost then
    { d with status := .Offline }
  else
    (RequestTransition (RequestTransition d e₁).2 e₂).2

/-- Modelled from the spec: the mode errors of spec sections 4.4 and 7
(missing from the source): `ModeChangeNotPermitted{currentStatus}` and the
illegal-mode-adjacency error. -/
inductive ModeError where
  | ModeChangeNotPermitted (currentStatus : Status)
  | IllegalModeChange (fromMode : FlightMode) (requestedMode : FlightMode)
deriving DecidableEq, Repr

/-- The statuses in which mode changes are accepted, per spec section 4.4:
{Armed, TakingOff, InFlight, Landing}. -/
def modePermittedStatuses : List Status :=
  [.Armed, .TakingOff, .InFlight, .Landing]

/-- Modelled from the spec: `SetMode(drone, mode)` of spec section 4.4
(missing from the source).  A request while the status is outside the
permitted set fails with `ModeChangeNotPermitted{currentStatus}`;
`ReturnToLaunch` and `Land` are always legal targets from any permitted
status; every other target requires the current mode to be compatible with
the requested one.  The mode-compatibility table is an explicit open point
of the spec (section 9), so it is a parameter `compat`. -/
def SetMode (compat : FlightMode → FlightMode → Bool) (d : Drone)
    (m : FlightMode) : Except ModeError FlightMode × Drone :=
  if d.status ∈ modePermittedStatuses then
    if m = .ReturnToLaunch ∨ m = .Land then
      (.ok m, { d with mode := m })
    else if compat d.mode m then
      (.ok m, { d with mode := m })
    else
      (.error (.IllegalModeChange d.mode m), d)
  else
    (.error (.ModeChangeNotPermitted d.status), d)

/-- Modelled from the spec: wrap-around normalization of a yaw angle into
the canonical half-open interval [-pi, pi) (spec sections 3 and 4.1,
missing from the source): subtract the whole number of full turns that
lands the angle in range. -/
noncomputable def normalizeYaw (x : ℝ) : ℝ :=
  x - 2 * Real.pi * ⌊(x + Real.pi) / (2 * Real.pi)⌋

/-- Modelled from the spec: a raw telemetry sample as delivered by the
telemetry source (spec section 6: position, orientation, velocity, raw
status/mode hints, timestamp; missing from the source). -/
structure RawSample where
  timestamp : ℕ
  position : Positioning_t
  orientation : Rotation_t
  velocity : Translation_t
  statusHint : Status
  modeHint : FlightMode

/-- Modelled from the spec: validity of a raw sample against the Units &
Frames invariants of spec section 3 (missing from the source): position in
geodetic range and roll/pitch in [-pi, pi].  The raw yaw is unconstrained
because ingestion normalizes it. -/
def ValidSample (s : RawSample) : Prop :=
  PositionInvariant s.position ∧
  s.orientation.roll ∈ Set.Icc (-Real.pi) Real.pi ∧
  s.orientation.pitch ∈ Set.Icc (-Real.pi) Real.pi

/-- Modelled from the spec: the ingestion errors of spec sections 4.5 and 7
(missing from the source). -/
inductive IngestError where
  | InvalidSample
  | OutOfOrderSample
deriving DecidableEq, Repr

/-- Modelled from the spec: the snapshot built from a validated raw sample
(spec section 4.5, missing from the source): sample fields with the yaw
normalized, the drone's authoritative status and mode, and the given
sequence number. -/
noncomputable def snapshotOf (d : Drone) (n : ℕ) (s : RawSample) :
    TelemetrySnapshot :=
  { timestamp := s.timestamp
    position := s.position
    orientation := { s.orientation with yaw := normalizeYaw s.orientation.yaw }
    velocity := s.velocity
    status := d.status
    mode := d.mode
    sequenceNumber := n }

open Classical in
/-- Modelled from the spec: `Ingest(drone, rawSample)` of spec section 4.5
(missing from the source).  First validates the sample against the Units &
Frames invariants (failure: `InvalidSample`, drone unchanged); then checks
the timestamp against the previous snapshot (a regression fails with
`OutOfOrderSample`, drone unchanged); on success assigns the next sequence
number (starting at 0 for the first snapshot) and replaces `latest`. -/
noncomputable def Ingest (d : Drone) (s : RawSample) :
    Except IngestError TelemetrySnapshot × Drone :=
  if ValidSample s then
    match d.latest with
    | none =>
        (.ok (snapshotOf d 0 s), { d with latest := some (snapshotOf d 0 s) })
    | some prev =>
        if s.timestamp < prev.timestamp then
          (.error .OutOfOrderSample, d)
        else
          (.ok (snapshotOf d (prev.sequenceNumber + 1) s),
           { d with latest := some (snapshotOf d (prev.sequenceNumber + 1) s) })
  else
    (.error .InvalidSample, d)

/-- Modelled from the spec: the capability-set error of spec sections 4.2
and 7 (missing from the source). -/
inductive CapabilityError where
  | ImmutableCapabilitySet
deriving DecidableEq, Repr

/-- Modelled from the spec: an attempt to add a capability outside the
registration step (spec section 4.2, missing from the source); it always
fails with `ImmutableCapabilitySet` and leaves the drone unchanged. -/
def AddCapability (d : Drone) (_ : Capability) :
    Except CapabilityError Unit × Drone :=
  (.error .ImmutableCapabilitySet, d)

/-- Modelled from the spec: an attempt to remove a capability outside the
registration step (spec section 4.2, missing from the source); it always
fails with `ImmutableCapabilitySet` and leaves the drone unchanged. -/
def RemoveCapability (d : Drone) (_ : Capability) :
    Except CapabilityError Unit × Drone :=
  (.error .ImmutableCapabilitySet, d)

/-- A core operation on the `Drone` aggregate after registration: a status
transition request, a mode change request, or a telemetry ingestion (spec
sections 4.2-4.5). -/
inductive Operation where
  | transition (e : Event)
  | setMode (m : FlightMode)
  | ingest (s : RawSample)

/-- The drone after one core operation (the state component of the
corresponding operation's result). -/
noncomputable def applyOp (compat : FlightMode → FlightMode → Bool)
    (d : Drone) : Operation → Drone
  | .transition e => (RequestTransition d e).2
  | .setMode m => (SetMode compat d m).2
  | .ingest s => (Ingest d s).2

/-- The drone after a sequence of core operations, applied in order. -/
noncomputable def applyOps (compat : FlightMode → FlightMode → Bool)
    (d : Drone) (ops : List Operation) : Drone :=
  ops.foldl (applyOp compat) d

/-- The ten capability names as the spec section 3 lists them. -/
def specCapabilityNames : List String :=
  ["Video", "Thermal", "Infrared", "SearchLight", "Speaker", "PayloadBay",
   "HighAltitude", "LongRange", "FastSpeed", "HeavyLift"]

/-- The ten capability enumerator names as the source spells them
(`src/Libs/Interfaces/IDrone.h` lines 14-26). -/
def sourceCapabilityNames : List String :=
  ["Video", "Thermal", "Infared", "SearchLight", "Speaker", "PayloadBay",
   "HighAltitude", "LongRange", "FastSpeed", "HeavyLift"]

/-- Every `Capability` constructor, in declaration order. -/
def allCapabilities : List Capability :=
  [.Video, .Thermal, .Infared, .SearchLight, .Speaker, .PayloadBay,
   .HighAltitude, .LongRange, .FastSpeed, .HeavyLift]

/-- A freshly registered drone in the initial status `Offline`. -/
def d0 : Drone :=
  { id := "drone-0", capabilities := ∅, status := .Offline, mode := .Manual,
    latest := none }

/-- A drone sitting in status `Idle`. -/
def d1 : Drone :=
  { id := "drone-1", capabilities := ∅, status := .Idle, mode := .Manual,
    latest := none }

/-- A drone flying in status `InFlight` with mode `Auto`. -/
def d2 : Drone :=
  { id := "drone-2", capabilities := ∅, status := .InFlight, mode := .Auto,
    latest := none }

/-- A concrete previous snapshot: timestamp 5, sequence number 7. -/
def snapPrev : TelemetrySnapshot :=
  { timestamp := 5, position := {}, orientation := {}, velocity := {},
    status := .InFlight, mode := .Auto, sequenceNumber := 7 }

/-- A drone in flight whose latest snapshot is `snapPrev`. -/
def dIn : Drone :=
  { id := "drone-3", capabilities := ∅, status := .InFlight, mode := .Auto,
    latest := some snapPrev }

/-- A well-formed raw sample with timestamp 9 (later than `snapPrev`). -/
def sampleOk : RawSample :=
  { timestamp := 9, position := {}, orientation := {}, velocity := {},
    statusHint := .InFlight, modeHint := .Auto }

/-- An ill-formed raw sample (latitude 91 is out of geodetic range) whose
timestamp 2 also regresses behind `snapPrev`. -/
def sampleBad : RawSample :=
  { timestamp := 2,
    position := { latitude := 91, longitude := 0, absoluteAltitude := 0,
                  relativeAltitude := 0 },
    orientation := {}, velocity := {},
    statusHint := .InFlight, modeHint := .Auto }

/-! ## Theorems -/

/-- The partial successor function succeeds exactly on the edges listed in
the section 4.3 transition table. -/
theorem nextStatus_isSome_iff (s : Status) (e : Event) :
    (nextStatus s e).isSome = true ↔ (s, e) ∈ legalEdges := by
  revert s e
  decide

/-- The connection-lost event is accepted from every state and targets
`Offline`. -/
theorem nextStatus_connectionLost (s : Status) :
    nextStatus s .connectionLost = some .Offline := by
  cases s <;> rfl

/-- C1: for every drone and transition event, `RequestTransition` succeeds
exactly when the pair (current status, event) is an edge of the section 4.3
transition table; on any other pair it returns
`IllegalTransition{from, attemptedEvent}` and leaves the drone (hence its
status) unchanged. -/
theorem requestTransition_spec (d : Drone) (e : Event) :
    ((∃ s, (RequestTransition d e).1 = .ok s) ↔ (d.status, e) ∈ legalEdges) ∧
    ((d.status, e) ∉ legalEdges →
      (RequestTransition d e).1 = .error (.IllegalTransition d.status e) ∧
      (RequestTransition d e).2 = d) := by
  have h := nextStatus_isSome_iff d.status e
  rcases hns : nextStatus d.status e with _ | s
  · rw [hns] at h
    simp only [Option.isSome_none, Bool.false_eq_true, false_iff] at h
    refine ⟨⟨?_, ?_⟩, ?_⟩
    · rintro ⟨s, hs⟩
      simp [RequestTransition, hns] at hs
    · intro hmem
      exact absurd hmem h
    · intro _
      refine ⟨?_, ?_⟩ <;> simp [RequestTransition, hns]
  · rw [hns] at h
    simp only [Option.isSome_some, true_iff] at h
    refine ⟨⟨fun _ => h, fun _ => ⟨s, ?_⟩⟩, fun hmem => absurd h hmem⟩
    simp [RequestTransition, hns]

/-- Witness for C1: from `Offline`, an arm command is rejected with
`IllegalTransition{Offline, armCommand}` and the drone is unchanged. -/
theorem requestTransition_spec_witness :
    (RequestTransition d0 .armCommand).1 =
      .error (.IllegalTransition .Offline .armCommand) ∧
    (RequestTransition d0 .armCommand).2 = d0 :=
  (requestTransition_spec d0 .armCommand).2 (by decide)

/-- C2: a connection-lost event from any status yields `Offline`, and when
a connection-lost event races a legal transition request issued
concurrently, the resolved status is `Offline` whichever of the two was
issued first (the override supersedes the other pending request). -/
theorem connectionLost_override (d : Drone) (e : Event) :
    RequestTransition d .connectionLost =
      (.ok .Offline, { d with status := .Offline }) ∧
    ((d.status, e) ∈ legalEdges →
      (resolveConcurrent d e .connectionLost).status = .Offline ∧
      (resolveConcurrent d .connectionLost e).status = .Offline) := by
  refine ⟨?_, fun _ => ⟨?_, ?_⟩⟩
  · simp [RequestTransition, nextStatus_connectionLost]
  · simp [resolveConcurrent]
  · simp [resolveConcurrent]

/-- Witness for C2: in status `Idle`, a legal arm command racing a
connection-lost event resolves to `Offline` in both issue orders. -/
theorem connectionLost_override_witness :
    (resolveConcurrent d1 .armCommand .connectionLost).status = .Offline ∧
    (resolveConcurrent d1 .connectionLost .armCommand).status = .Offline :=
  (connectionLost_override d1 .armCommand).2 (by decide)

/-- C4: for every compatibility table, drone and requested flight mode,
`SetMode` fails with `ModeChangeNotPermitted{currentStatus}` whenever the
status is outside {Armed, TakingOff, InFlight, Landing} (leaving the drone
unchanged), and whenever the status is inside that set a request targeting
`ReturnToLaunch` or `Land` succeeds regardless of the current mode. -/
theorem setMode_spec (compat : FlightMode → FlightMode → Bool) (d : Drone)
    (m : FlightMode) :
    (d.status ∉ modePermittedStatuses →
      SetMode compat d m = (.error (.ModeChangeNotPermitted d.status), d)) ∧
    (d.status ∈ modePermittedStatuses → (m = .ReturnToLaunch ∨ m = .Land) →
      SetMode compat d m = (.ok m, { d with mode := m })) := by
  constructor
  · intro h
    simp [SetMode, h]
  · intro h hm
    rcases hm with rfl | rfl <;> simp [SetMode, h]

/-- Witness for C4: a drone in `InFlight` with current mode `Auto` may
always switch to `ReturnToLaunch`, even under a compatibility table that
permits nothing. -/
theorem setMode_spec_witness :
    SetMode (fun _ _ => false) d2 .ReturnToLaunch =
      (.ok .ReturnToLaunch, { d2 with mode := .ReturnToLaunch }) :=
  (setMode_spec (fun _ _ => false) d2 .ReturnToLaunch).2 (by decide)
    (Or.inl rfl)

/-- C5: whenever one of the core operations `RequestTransition`, `SetMode`
or `Ingest` returns an error, the drone aggregate after the call is exactly
the drone before the call (errors are explicit result values and mutation
is all-or-nothing per request). -/
theorem errors_all_or_nothing (compat : FlightMode → FlightMode → Bool)
    (d : Drone) (e : Event) (m : FlightMode) (s : RawSample) :
    (∀ err, (RequestTransition d e).1 = .error err →
      (RequestTransition d e).2 = d) ∧
    (∀ err, (SetMode compat d m).1 = .error err →
      (SetMode compat d m).2 = d) ∧
    (∀ err, (Ingest d s).1 = .error err → (Ingest d s).2 = d) := by
  refine ⟨?_, ?_, ?_⟩
  · intro err herr
    rcases hns : nextStatus d.status e with _ | s'
    · simp [RequestTransition, hns]
    · simp [RequestTransition, hns] at herr
  · intro err herr
    unfold SetMode at herr ⊢
    split_ifs at herr ⊢ <;> simp_all
  · intro err herr
    by_cases hv : ValidSample s
    · rcases hl : d.latest with _ | prev
      · simp [Ingest, hv, hl] at herr
      · by_cases ht : s.timestamp < prev.timestamp
        · simp [Ingest, hv, hl, ht]
        · simp [Ingest, hv, hl, ht] at herr
    · simp [Ingest, hv]

/-- Witness for C5: the failing arm command from `Offline` leaves the drone
exactly as it was. -/
theorem errors_all_or_nothing_witness :
    (RequestTransition d0 .armCommand).2 = d0 :=
  (errors_all_or_nothing (fun _ _ => false) d0 .armCommand .Manual
      sampleOk).1 (.IllegalTransition .Offline .armCommand) rfl

/-- The concrete sample `sampleOk` passes the Units & Frames validation. -/
theorem validSample_sampleOk : ValidSample sampleOk := by
  have h := Real.pi_pos
  refine ⟨⟨?_, ?_⟩, ?_, ?_⟩
  · norm_num [sampleOk, Set.mem_Icc]
  · norm_num [sampleOk, Set.mem_Icc]
  · rw [show sampleOk.orientation.roll = 0 from rfl, Set.mem_Icc]
    constructor <;> linarith
  · rw [show sampleOk.orientation.pitch = 0 from rfl, Set.mem_Icc]
    constructor <;> linarith

/-- The concrete sample `sampleBad` fails the Units & Frames validation:
its latitude 91 is outside [-90, 90]. -/
theorem not_validSample_sampleBad : ¬ ValidSample sampleBad := by
  intro hval
  have h91 : (91 : ℝ) ≤ 90 := hval.1.1.2
  norm_num at h91

/-- C3 (amended): for a drone whose latest snapshot has timestamp `T` and
sequence number `N`, ingesting a well-formed sample whose timestamp is
strictly below `T` fails with `OutOfOrderSample` and leaves the drone
(hence its latest snapshot) unchanged; ingesting a well-formed sample with
timestamp at least `T` succeeds with sequence number exactly `N + 1` and
replaces `latest` with the new snapshot in the same call; and on a drone
with no snapshot yet, a well-formed sample gets sequence number 0. -/
theorem ingest_spec (d : Drone) (prev : TelemetrySnapshot) (s : RawSample) :
    (d.latest = some prev → ValidSample s →
      s.timestamp < prev.timestamp →
      Ingest d s = (.error .OutOfOrderSample, d)) ∧
    (d.latest = some prev → ValidSample s →
      prev.timestamp ≤ s.timestamp →
      Ingest d s = (.ok (snapshotOf d (prev.sequenceNumber + 1) s),
        { d with latest := some (snapshotOf d (prev.sequenceNumber + 1) s) })) ∧
    (d.latest = none → ValidSample s →
      Ingest d s = (.ok (snapshotOf d 0 s),
        { d with latest := some (snapshotOf d 0 s) })) := by
  refine ⟨?_, ?_, ?_⟩
  · intro hl hv ht
    simp [Ingest, hv, hl, ht]
  · intro hl hv ht
    have ht' : ¬ s.timestamp < prev.timestamp := not_lt.mpr ht
    simp [Ingest, hv, hl, ht']
  · intro hl hv
    simp [Ingest, hv, hl]

/-- Witness for C3: on `dIn` (latest timestamp 5, sequence number 7) the
well-formed sample `sampleOk` (timestamp 9) is accepted with sequence
number 8 and replaces the latest snapshot. -/
theorem ingest_spec_witness :
    Ingest dIn sampleOk = (.ok (snapshotOf dIn (7 + 1) sampleOk),
      { dIn with latest := some (snapshotOf dIn (7 + 1) sampleOk) }) :=
  (ingest_spec dIn snapPrev sampleOk).2.1 rfl validSample_sampleOk
    (by norm_num [snapPrev, sampleOk])

/-- C3 counterexample: `sampleBad` has timestamp 2, strictly below the
latest snapshot's timestamp 5, yet `Ingest` rejects it with
`InvalidSample`, not `OutOfOrderSample`, because the sample is ill-formed
(latitude 91) and validation is checked first (spec section 4.5). -/
theorem ingest_outOfOrder_counterexample :
    dIn.latest = some snapPrev ∧
    sampleBad.timestamp < snapPrev.timestamp ∧
    (Ingest dIn sampleBad).1 = .error .InvalidSample ∧
    (Ingest dIn sampleBad).1 ≠ .error .OutOfOrderSample ∧
    (Ingest dIn sampleBad).2 = dIn := by
  refine ⟨rfl, by norm_num [sampleBad, snapPrev], ?_, ?_, ?_⟩ <;>
    simp [Ingest, not_validSample_sampleBad]

/-- Each core operation leaves the capability set of the drone unchanged. -/
theorem applyOp_capabilities (compat : FlightMode → FlightMode → Bool)
    (d : Drone) (op : Operation) :
    (applyOp compat d op).capabilities = d.capabilities := by
  cases op with
  | transition e =>
    rcases hns : nextStatus d.status e with _ | s' <;>
      simp [applyOp, RequestTransition, hns]
  | setMode m =>
    simp only [applyOp, SetMode]
    split_ifs <;> rfl
  | ingest s =>
    by_cases hv : ValidSample s
    · rcases hl : d.latest with _ | prev
      · simp [applyOp, Ingest, hv, hl]
      · by_cases ht : s.timestamp < prev.timestamp <;>
          simp [applyOp, Ingest, hv, hl, ht]
    · simp [applyOp, Ingest, hv]

/-- A sequence of core operations leaves the capability set unchanged. -/
theorem applyOps_capabilities (compat : FlightMode → FlightMode → Bool)
    (d : Drone) (ops : List Operation) :
    (applyOps compat d ops).capabilities = d.capabilities := by
  induction ops generalizing d with
  | nil => rfl
  | cons op rest ih =>
    calc (applyOps compat d (op :: rest)).capabilities
        = (applyOps compat (applyOp compat d op) rest).capabilities := rfl
      _ = (applyOp compat d op).capabilities := ih _
      _ = d.capabilities := applyOp_capabilities compat d op

/-- C9: after any sequence of core operations the capability set equals the
capability set fixed at registration, and any attempt to add or remove a
capability outside registration fails with `ImmutableCapabilitySet`,
leaving the drone unchanged. -/
theorem capabilities_immutable (compat : FlightMode → FlightMode → Bool)
    (d : Drone) (ops : List Operation) (c : Capability) :
    Capabilities (applyOps compat d ops) = Capabilities d ∧
    AddCapability d c = (.error .ImmutableCapabilitySet, d) ∧
    RemoveCapability d c = (.error .ImmutableCapabilitySet, d) :=
  ⟨applyOps_capabilities compat d ops, rfl, rfl⟩

/-- The normalized yaw, written through the fractional part of the number
of turns: `normalizeYaw x = 2 pi fract((x + pi) / (2 pi)) - pi`. -/
theorem normalizeYaw_eq_fract (x : ℝ) :
    normalizeYaw x =
      2 * Real.pi * Int.fract ((x + Real.pi) / (2 * Real.pi)) - Real.pi := by
  have h2 : (2 : ℝ) * Real.pi ≠ 0 := by positivity
  unfold normalizeYaw
  rw [Int.fract]
  field_simp
  ring

/-- Yaw normalization lands in the canonical interval [-pi, pi). -/
theorem normalizeYaw_mem (x : ℝ) :
    normalizeYaw x ∈ Set.Ico (-Real.pi) Real.pi := by
  have h2 : (0 : ℝ) < 2 * Real.pi := by positivity
  have hf0 : (0 : ℝ) ≤ Int.fract ((x + Real.pi) / (2 * Real.pi)) :=
    Int.fract_nonneg _
  have hf1 : Int.fract ((x + Real.pi) / (2 * Real.pi)) < 1 :=
    Int.fract_lt_one _
  rw [normalizeYaw_eq_fract, Set.mem_Ico]
  constructor
  · have := mul_nonneg h2.le hf0
    linarith
  · have := mul_lt_mul_of_pos_left hf1 h2
    rw [mul_one] at this
    linarith

/-- Yaw normalization is the identity on the canonical interval. -/
theorem normalizeYaw_eq_self (x : ℝ) (hx : x ∈ Set.Ico (-Real.pi) Real.pi) :
    normalizeYaw x = x := by
  have h2 : (0 : ℝ) < 2 * Real.pi := by positivity
  rw [Set.mem_Ico] at hx
  have hfl : ⌊(x + Real.pi) / (2 * Real.pi)⌋ = 0 := by
    rw [Int.floor_eq_zero_iff, Set.mem_Ico]
    constructor
    · exact div_nonneg (by linarith [hx.1]) h2.le
    · rw [div_lt_one h2]
      linarith [hx.2]
  unfold normalizeYaw
  rw [hfl]
  simp

/-- C6: yaw normalization maps every real yaw into [-pi, pi), and is the
identity on every yaw already in [-pi, pi). -/
theorem normalizeYaw_spec :
    (∀ x : ℝ, normalizeYaw x ∈ Set.Ico (-Real.pi) Real.pi) ∧
    (∀ x : ℝ, x ∈ Set.Ico (-Real.pi) Real.pi → normalizeYaw x = x) :=
  ⟨normalizeYaw_mem, normalizeYaw_eq_self⟩

/-- Witness for C6: the yaw 3 pi normalizes into [-pi, pi), and the
in-range yaw 0 normalizes to itself. -/
theorem normalizeYaw_spec_witness :
    normalizeYaw (3 * Real.pi) ∈ Set.Ico (-Real.pi) Real.pi ∧
    normalizeYaw 0 = 0 :=
  ⟨normalizeYaw_spec.1 (3 * Real.pi),
   normalizeYaw_spec.2 0
     (Set.mem_Ico.mpr ⟨neg_nonpos.mpr Real.pi_nonneg, Real.pi_pos⟩)⟩

/-- C7 counterexample: the third enumerator of `Capability` is spelled
`Infared` in the source, which is not among the ten names the claim lists
(the claim spells it `Infrared`). -/
theorem capability_name_counterexample :
    capabilityName Capability.Infared ∉ specCapabilityNames := by
  decide

/-- C7 (amended): `Capability` is a closed enumeration with exactly the ten
enumerators spelled `Video, Thermal, Infared (sic), SearchLight, Speaker,
PayloadBay, HighAltitude, LongRange, FastSpeed, HeavyLift` in the source:
every value is one of these ten and no others exist. -/
theorem capability_closed_enum :
    (∀ c : Capability, c ∈ allCapabilities) ∧
    allCapabilities.map capabilityName = sourceCapabilityNames ∧
    sourceCapabilityNames.Nodup ∧
    sourceCapabilityNames.length = 10 ∧
    allCapabilities.length = Fintype.card Capability := by
  refine ⟨?_, ?_, ?_, ?_, ?_⟩ <;> decide

/-- C8: a telemetry snapshot is exactly its seven fields `timestamp,
position, orientation, velocity, status, mode, sequenceNumber` (it equals
the record rebuilt from them, and being a plain value it is immutable once
constructed), and the sequence number ingestion assigns is strictly larger
than the previous snapshot's. -/
theorem telemetrySnapshot_fields (s : TelemetrySnapshot) (d : Drone)
    (prev snap : TelemetrySnapshot) (raw : RawSample) (d' : Drone) :
    s = ⟨s.timestamp, s.position, s.orientation, s.velocity, s.status,
         s.mode, s.sequenceNumber⟩ ∧
    (d.latest = some prev → Ingest d raw = (.ok snap, d') →
      snap.sequenceNumber = prev.sequenceNumber + 1) := by
  constructor
  · rfl
  · intro hl heq
    by_cases hv : ValidSample raw
    · by_cases ht : raw.timestamp < prev.timestamp
      · simp [Ingest, hv, hl, ht] at heq
      · simp only [Ingest, hv, if_true, hl, ht, if_false, ite_false,
          Prod.mk.injEq, Except.ok.injEq] at heq
        obtain ⟨h1, -⟩ := heq
        rw [← h1]
        rfl
    · simp [Ingest, hv] at heq

/-- Witness for C8: ingesting `sampleOk` on `dIn` yields the snapshot with
sequence number `snapPrev.sequenceNumber + 1 = 8`. -/
theorem telemetrySnapshot_fields_witness :
    (snapshotOf dIn (7 + 1) sampleOk).sequenceNumber =
      snapPrev.sequenceNumber + 1 := by
  have ht' : ¬ sampleOk.timestamp < snapPrev.timestamp := by
    norm_num [sampleOk, snapPrev]
  have hI : Ingest dIn sampleOk = (.ok (snapshotOf dIn (7 + 1) sampleOk),
      { dIn with latest := some (snapshotOf dIn (7 + 1) sampleOk) }) := by
    simp [Ingest, validSample_sampleOk,
      show dIn.latest = some snapPrev from rfl, ht',
      show snapPrev.sequenceNumber = 7 from rfl]
  exact (telemetrySnapshot_fields snapPrev dIn snapPrev
    (snapshotOf dIn (7 + 1) sampleOk) sampleOk
    { dIn with latest := some (snapshotOf dIn (7 + 1) sampleOk) }).2 rfl hI

/-- C10: default construction of `Positioning_t`, `Rotation_t` and
`Translation_t` yields all fields equal to 0, and those zero values satisfy
the documented range invariants (latitude/longitude in geodetic range,
roll/pitch in [-pi, pi], yaw in [-pi, pi)). -/
theorem default_values_spec :
    ({} : Positioning_t) = ⟨0, 0, 0, 0⟩ ∧
    ({} : Rotation_t) = ⟨0, 0, 0⟩ ∧
    ({} : Translation_t) = ⟨0, 0, 0⟩ ∧
    PositionInvariant {} ∧
    RotationInvariant {} := by
  have h := Real.pi_pos
  refine ⟨rfl, rfl, rfl, ⟨?_, ?_⟩, ⟨?_, ?_, ?_⟩⟩
  · norm_num [Set.mem_Icc]
  · norm_num [Set.mem_Icc]
  · rw [show ({} : Rotation_t).roll = 0 from rfl, Set.mem_Icc]
    constructor <;> linarith
  · rw [show ({} : Rotation_t).pitch = 0 from rfl, Set.mem_Icc]
    constructor <;> linarith
  · rw [show ({} : Rotation_t).yaw = 0 from rfl, Set.mem_Ico]
    constructor <;> linarith

end Drone
end Interface
